import Mathlib

set_option linter.unusedVariables false

/-! Shallow embedding of the ticket/dispatch core of the support-chat server:
    the TicketManager class, the customer- and agent-namespace socket handlers,
    and the admin REST projections. JS Maps are modelled as insertion-ordered
    association lists, JS Sets as duplicate-free lists, and the wall clock
    (new Date / Date.now) as a Nat threaded through every operation. -/

/-- JS Map.get on an insertion-ordered association list. -/
def getA {κ α : Type} [DecidableEq κ] : List (κ × α) → κ → Option α
  | [], _ => none
  | (k', v) :: rest, k => if k' = k then some v else getA rest k

/-- JS Map.set: replaces the value in place when the key is present (keeping
    its position), appends at the end otherwise, as JS Maps preserve insertion
    order. -/
def setA {κ α : Type} [DecidableEq κ] : List (κ × α) → κ → α → List (κ × α)
  | [], k, v => [(k, v)]
  | (k', v') :: rest, k, v =>
    if k' = k then (k, v) :: rest else (k', v') :: setA rest k v

/-- JS Map.delete. Lists built through setA have unique keys, so removing
    every pair carrying the key coincides with deleting the single entry. -/
def delA {κ α : Type} [DecidableEq κ] (m : List (κ × α)) (k : κ) : List (κ × α) :=
  m.filter (fun p => p.1 ≠ k)

/-- JS Set.add: no-op when the element is present, append otherwise. -/
def addSet {α : Type} [DecidableEq α] (s : List α) (x : α) : List α :=
  if x ∈ s then s else s ++ [x]

/-- JS Set.delete. Lists built through addSet are duplicate-free, so
    filtering out every occurrence coincides with deleting the element. -/
def delSet {α : Type} [DecidableEq α] (s : List α) (x : α) : List α :=
  s.filter (fun y => y ≠ x)

/-- Ticket ids produced by generateTicketId: the string
    TICKET-(Date.now())-(counter) is modelled by its two numeric components. -/
structure TicketId where
  time : Nat
  seq : Nat
deriving DecidableEq, Repr

/-- A chat message stored on a ticket. The id abstracts the
    time-plus-random string of generateMessageId down to its time component;
    no property below observes more of it. -/
structure MessageRec where
  id : Nat
  content : String
  sender : String
  senderId : Option String
  timestamp : Nat
  read : Bool
deriving DecidableEq, Repr

/-- A ticket as built by TicketManager.createTicket; closedAt/closedBy are
    absent (none) until closeTicket stamps them. -/
structure Ticket where
  id : TicketId
  customerId : String
  customerSocketId : String
  status : String
  priority : String
  assignedAgent : Option String
  createdAt : Nat
  updatedAt : Nat
  messages : List MessageRec
  customerInfoConnectedAt : Nat
  customerInfoLastSeen : Nat
  closedAt : Option Nat := none
  closedBy : Option String := none
deriving DecidableEq, Repr

/-- An entry of agentSockets: the agent record stored on authenticate. -/
structure AgentInfo where
  id : String
  socketId : String
  name : String
  department : String
  status : String
  connectedAt : Nat
  lastActivity : Nat
deriving DecidableEq, Repr

/-- An entry of customerSockets. -/
structure CustomerSocketInfo where
  id : String
  connectedAt : Nat
  lastActivity : Nat
deriving DecidableEq, Repr

/-- The TicketManager state: its five Maps and the ticket counter. -/
structure TicketManager where
  tickets : List (TicketId × Ticket)
  customerSockets : List (String × CustomerSocketInfo)
  agentSockets : List (String × AgentInfo)
  ticketAssignments : List (TicketId × String)
  agentTickets : List (String × List TicketId)
  ticketCounter : Nat
deriving DecidableEq, Repr

/-- The state built by the TicketManager constructor. -/
def TicketManager.init : TicketManager :=
  { tickets := [], customerSockets := [], agentSockets := []
    ticketAssignments := [], agentTickets := [], ticketCounter := 1 }

/-- generateTicketId: combines Date.now with the post-incremented counter. -/
def TicketManager.generateTicketId (tm : TicketManager) (now : Nat) :
    TicketId × TicketManager :=
  (⟨now, tm.ticketCounter⟩, { tm with ticketCounter := tm.ticketCounter + 1 })

/-- generateMessageId: Date.now in base 36 plus a random suffix; modelled by
    the time component alone. -/
def TicketManager.generateMessageId (now : Nat) : Nat := now

/-- TicketManager.createTicket: builds the open, unassigned ticket, pushes the
    initial customer message when given, and stores the ticket. -/
def TicketManager.createTicket (tm : TicketManager) (customerId customerSocketId : String)
    (initialMessage : Option String) (now : Nat) : Ticket × TicketManager :=
  let (ticketId, tm) := tm.generateTicketId now
  let baseMessages : List MessageRec :=
    match initialMessage with
    | some content =>
      [{ id := TicketManager.generateMessageId now, content := content
         sender := "customer", senderId := none, timestamp := now, read := false }]
    | none => []
  let ticket : Ticket :=
    { id := ticketId, customerId := customerId, customerSocketId := customerSocketId
      status := "open", priority := "normal", assignedAgent := none
      createdAt := now, updatedAt := now, messages := baseMessages
      customerInfoConnectedAt := now, customerInfoLastSeen := now }
  (ticket, { tm with tickets := setA tm.tickets ticketId ticket })

/-- The assigned-ticket count used by getAvailableAgent:
    agentTickets.get(id)?.size or 0. -/
def TicketManager.agentTicketCount (tm : TicketManager) (agentId : String) : Nat :=
  ((getA tm.agentTickets agentId).map List.length).getD 0

/-- TicketManager.getAvailableAgent: the available agents (in Map insertion
    order) sorted by ascending assigned-ticket count with the JS stable sort
    (modelled by insertion sort; no property below observes tie order); the
    first one, or null when none. -/
def TicketManager.getAvailableAgent (tm : TicketManager) : Option AgentInfo :=
  let availableAgents :=
    ((tm.agentSockets.map Prod.snd).filter (fun a => a.status == "available")).insertionSort
      (fun a b => tm.agentTicketCount a.id ≤ tm.agentTicketCount b.id)
  availableAgents.head?

/-- TicketManager.assignTicket: requires the ticket and agent to exist; sets
    status/assignedAgent/updatedAt, the forward ticketAssignments entry, and
    adds the ticket to the agent's agentTickets set. -/
def TicketManager.assignTicket (tm : TicketManager) (ticketId : TicketId)
    (agentId : String) (now : Nat) : Bool × TicketManager :=
  match getA tm.tickets ticketId, getA tm.agentSockets agentId with
  | some ticket, some _ =>
    let ticket' := { ticket with assignedAgent := some agentId, status := "assigned"
                                 updatedAt := now }
    let prevSet := (getA tm.agentTickets agentId).getD []
    (true,
      { tm with tickets := setA tm.tickets ticketId ticket'
                ticketAssignments := setA tm.ticketAssignments ticketId agentId
                agentTickets := setA tm.agentTickets agentId (addSet prevSet ticketId) })
  | _, _ => (false, tm)

/-- TicketManager.addMessage: null for an unknown ticket; otherwise appends the
    fresh message and bumps updatedAt, returning the message. -/
def TicketManager.addMessage (tm : TicketManager) (ticketId : TicketId)
    (content sender : String) (senderId : Option String) (now : Nat) :
    Option MessageRec × TicketManager :=
  match getA tm.tickets ticketId with
  | none => (none, tm)
  | some ticket =>
    let message : MessageRec :=
      { id := TicketManager.generateMessageId now, content := content, sender := sender
        senderId := senderId, timestamp := now, read := false }
    let ticket' := { ticket with messages := ticket.messages ++ [message]
                                 updatedAt := now }
    (some message, { tm with tickets := setA tm.tickets ticketId ticket' })

/-- The predicate of getTicketByCustomer: the ticket belongs to the customer
    socket id and its status is open or assigned. -/
def openAssignedFor (customerSocketId : String) (t : Ticket) : Bool :=
  t.customerSocketId == customerSocketId &&
    (t.status == "open" || t.status == "assigned")

/-- TicketManager.getTicketByCustomer: the first stored ticket for the customer
    socket id whose status is open or assigned. -/
def TicketManager.getTicketByCustomer (tm : TicketManager) (customerSocketId : String) :
    Option Ticket :=
  (tm.tickets.map Prod.snd).find? (openAssignedFor customerSocketId)

/-- The truncated preview of a message used in ticket summaries. -/
def previewContent (content : String) : String :=
  content.take 100 ++ (if 100 < content.length then "..." else "")

/-- The summary record produced by getTicketSummary. -/
structure TicketSummary where
  id : TicketId
  customerId : String
  status : String
  priority : String
  createdAt : Nat
  updatedAt : Nat
  messageCount : Nat
  unreadCount : Nat
  lastMessage : Option (String × Nat × String)
deriving DecidableEq, Repr

/-- TicketManager.getTicketSummary. -/
def TicketManager.getTicketSummary (ticket : Ticket) : TicketSummary :=
  let lastMessage := ticket.messages.getLast?
  { id := ticket.id, customerId := ticket.customerId, status := ticket.status
    priority := ticket.priority, createdAt := ticket.createdAt
    updatedAt := ticket.updatedAt, messageCount := ticket.messages.length
    unreadCount := (ticket.messages.filter
      (fun m => !m.read && m.sender == "customer")).length
    lastMessage := lastMessage.map
      (fun m => (previewContent m.content, m.timestamp, m.sender)) }

/-- TicketManager.getAgentTickets: the summaries of the agent's set's tickets
    that still exist with status assigned or open, sorted by descending
    updatedAt. -/
def TicketManager.getAgentTickets (tm : TicketManager) (agentId : String) :
    List TicketSummary :=
  let ticketIds := (getA tm.agentTickets agentId).getD []
  let tickets := ticketIds.filterMap (fun tid =>
    match getA tm.tickets tid with
    | some t =>
      if t.status == "assigned" || t.status == "open"
      then some (TicketManager.getTicketSummary t) else none
    | none => none)
  tickets.insertionSort (fun a b => b.updatedAt ≤ a.updatedAt)

/-- TicketManager.closeTicket: false for an unknown ticket; otherwise stamps
    status/updatedAt/closedAt/closedBy, removes the ticket from its assigned
    agent's set (when assigned), and deletes the forward assignment entry.
    Note the code never clears ticket.assignedAgent. -/
def TicketManager.closeTicket (tm : TicketManager) (ticketId : TicketId)
    (closedBy : String) (now : Nat) : Bool × TicketManager :=
  match getA tm.tickets ticketId with
  | none => (false, tm)
  | some ticket =>
    let ticket' := { ticket with status := "closed", updatedAt := now
                                 closedAt := some now, closedBy := some closedBy }
    let agentTickets' :=
      match ticket.assignedAgent with
      | some agentId =>
        match getA tm.agentTickets agentId with
        | some s => setA tm.agentTickets agentId (delSet s ticketId)
        | none => tm.agentTickets
      | none => tm.agentTickets
    (true,
      { tm with tickets := setA tm.tickets ticketId ticket'
                agentTickets := agentTickets'
                ticketAssignments := delA tm.ticketAssignments ticketId })

/-- The record produced by getStats. -/
structure Stats where
  totalTickets : Nat
  openTickets : Nat
  assignedTickets : Nat
  closedTickets : Nat
  activeAgents : Nat
  totalAgents : Nat
  activeCustomers : Nat
deriving DecidableEq, Repr

/-- TicketManager.getStats. -/
def TicketManager.getStats (tm : TicketManager) : Stats :=
  let ticketList := tm.tickets.map Prod.snd
  { totalTickets := tm.tickets.length
    openTickets := (ticketList.filter (fun t => t.status == "open")).length
    assignedTickets := (ticketList.filter (fun t => t.status == "assigned")).length
    closedTickets := (ticketList.filter (fun t => t.status == "closed")).length
    activeAgents := ((tm.agentSockets.map Prod.snd).filter
      (fun a => a.status == "available")).length
    totalAgents := tm.agentSockets.length
    activeCustomers := tm.customerSockets.length }

/-- The welcome message emitted on customer connection. -/
def welcomeMessage : String :=
  "Hello! Welcome to our support chat. How can we help you today?"

/-- The system message sent when an agent was found for a ticket. -/
def agentConnectingMessage : String :=
  "An agent will be with you shortly. Please wait a moment..."

/-- The system message sent when no agent is available. -/
def noAgentsMessage : String :=
  "All our agents are currently busy. Your message has been recorded and an agent will respond as soon as possible. Thank you for your patience."

/-- The system message sent to the customer when a ticket is closed. -/
def sessionClosedMessage : String :=
  "This support session has been closed. Thank you for contacting us! Feel free to start a new conversation if you need further assistance."

/-- Events emitted towards connected sockets (socket.emit / namespace.to(...)
    .emit / broadcast, and the chat_message acknowledgement callback). -/
inductive OutEvent where
  | chatResponse (toSocket message sender messageType : String)
  | callbackAck (toSocket : String) (ticketId : TicketId)
  | newTicket (toAgentSocket : String) (summary : TicketSummary) (firstMessage : String)
  | customerMessage (toAgentSocket : String) (ticketId : TicketId) (content : String)
  | customerTyping (toAgentSocket : String) (ticketId : TicketId) (isTyping : Bool)
  | customerDisconnected (toAgentSocket : String) (ticketId : TicketId)
  | authError (toSocket message : String)
  | authSuccess (toSocket agentId : String) (tickets : List TicketSummary) (stats : Stats)
  | agentStatusChange (agentId agentName status : String)
  | errorEvent (toSocket message : String)
  | messageSent (toSocket : String) (ticketId : TicketId) (messageId : Nat)
  | typingToCustomer (toSocket : String) (isTyping : Bool)
  | ticketUpdated (toSocket : String) (ticketId : TicketId) (status : String)
  | ticketDetails (toSocket : String) (ticket : Ticket)
deriving DecidableEq, Repr

/-- The customer connection handler: stores the socket info and sends the
    welcome chat_response. -/
def handleCustomerConnect (tm : TicketManager) (socketId : String) (now : Nat) :
    List OutEvent × TicketManager :=
  let entry : CustomerSocketInfo := { id := socketId, connectedAt := now, lastActivity := now }
  let tm := { tm with customerSockets := setA tm.customerSockets socketId entry }
  ([OutEvent.chatResponse socketId welcomeMessage "system" "welcome"], tm)

/-- The body of the chat_message handler after the lastActivity bump:
    resolve or create the customer's ticket, acknowledge, then either try to
    assign an available agent (status open) or forward to the assigned
    agent's live socket. -/
def chatMessageCore (tm0 : TicketManager) (socketId message : String) (now : Nat) :
    List OutEvent × TicketManager :=
  let resolved :=
    match tm0.getTicketByCustomer socketId with
    | none => tm0.createTicket socketId socketId (some message) now
    | some t => (t, (tm0.addMessage t.id message "customer" none now).2)
  let ticket := resolved.1
  let tm := resolved.2
  let ack := [OutEvent.callbackAck socketId ticket.id]
  if ticket.status = "open" then
    match tm.getAvailableAgent with
    | some agent =>
      let tm' := (tm.assignTicket ticket.id agent.id now).2
      let ticketNow := (getA tm'.tickets ticket.id).getD ticket
      (ack ++
        [OutEvent.newTicket agent.socketId (TicketManager.getTicketSummary ticketNow) message,
         OutEvent.chatResponse socketId agentConnectingMessage "system" "agent_connecting"],
       tm')
    | none =>
      (ack ++ [OutEvent.chatResponse socketId noAgentsMessage "system" "no_agents_available"],
       tm)
  else if ticket.status = "assigned" then
    match ticket.assignedAgent with
    | some agentId =>
      match getA tm.agentSockets agentId with
      | some agentSocket =>
        (ack ++ [OutEvent.customerMessage agentSocket.socketId ticket.id message], tm)
      | none => (ack, tm)
    | none => (ack, tm)
  else (ack, tm)

/-- The chat_message handler: bumps the customer's lastActivity, then runs
    the core above. -/
def handleChatMessage (tm : TicketManager) (socketId message : String) (now : Nat) :
    List OutEvent × TicketManager :=
  let tm :=
    match getA tm.customerSockets socketId with
    | some info =>
      let info' := { info with lastActivity := now }
      { tm with customerSockets := setA tm.customerSockets socketId info' }
    | none => tm
  chatMessageCore tm socketId message now

/-- The customer typing handler. -/
def handleCustomerTyping (tm : TicketManager) (socketId : String) (isTyping : Bool) :
    List OutEvent × TicketManager :=
  match tm.getTicketByCustomer socketId with
  | some ticket =>
    match ticket.assignedAgent with
    | some agentId =>
      match getA tm.agentSockets agentId with
      | some agentSocket => ([OutEvent.customerTyping agentSocket.socketId ticket.id isTyping], tm)
      | none => ([], tm)
    | none => ([], tm)
  | none => ([], tm)

/-- The customer disconnect handler: notifies the assigned agent when one
    exists and removes the customer socket entry. The ticket itself is left
    untouched. -/
def handleCustomerDisconnect (tm : TicketManager) (socketId : String) (now : Nat) :
    List OutEvent × TicketManager :=
  let outs :=
    match tm.getTicketByCustomer socketId with
    | some ticket =>
      match ticket.assignedAgent with
      | some agentId =>
        match getA tm.agentSockets agentId with
        | some agentSocket => [OutEvent.customerDisconnected agentSocket.socketId ticket.id]
        | none => []
      | none => []
    | none => []
  (outs, { tm with customerSockets := delA tm.customerSockets socketId })

/-- The world: TicketManager state plus the per-socket agentId bindings
    (socket.agentId) and the clock driving every Date.now call. -/
structure World where
  tm : TicketManager
  socketAgent : List (String × String)
  clock : Nat
deriving DecidableEq, Repr

/-- The world at server start. -/
def World.init : World :=
  { tm := TicketManager.init, socketAgent := [], clock := 0 }

/-- The agent authenticate handler: rejects a missing agentId or agentName,
    otherwise (over)writes the agentSockets record with status available,
    binds the socket to the agentId, and replies with the agent's ticket list
    and a stats snapshot, broadcasting availability. -/
def handleAuthenticate (w : World) (sock agentId agentName department : String)
    (now : Nat) : List OutEvent × World :=
  if agentId = "" ∨ agentName = "" then
    ([OutEvent.authError sock "Invalid credentials"], w)
  else
    let info : AgentInfo :=
      { id := agentId, socketId := sock, name := agentName
        department := if department = "" then "General Support" else department
        status := "available", connectedAt := now, lastActivity := now }
    let tm := { w.tm with agentSockets := setA w.tm.agentSockets agentId info }
    ([OutEvent.authSuccess sock agentId (tm.getAgentTickets agentId) tm.getStats,
      OutEvent.agentStatusChange agentId agentName "available"],
     { w with tm := tm, socketAgent := setA w.socketAgent sock agentId })

/-- The send_message handler: not-authenticated and
    not-found-or-not-assigned error replies mutate nothing; otherwise the
    agent message is appended and forwarded to the customer socket. -/
def handleSendMessage (w : World) (sock : String) (ticketId : TicketId)
    (message : String) (now : Nat) : List OutEvent × World :=
  match getA w.socketAgent sock with
  | none => ([OutEvent.errorEvent sock "Not authenticated"], w)
  | some agentId =>
    match getA w.tm.tickets ticketId with
    | some ticket =>
      if ticket.assignedAgent = some agentId then
        let appended := w.tm.addMessage ticketId message "agent" (some agentId) now
        match appended.1 with
        | some messageObj =>
          ([OutEvent.chatResponse ticket.customerSocketId message "agent" "response",
            OutEvent.messageSent sock ticketId messageObj.id], { w with tm := appended.2 })
        | none => ([], { w with tm := appended.2 })
      else ([OutEvent.errorEvent sock "Ticket not found or not assigned to you"], w)
    | none => ([OutEvent.errorEvent sock "Ticket not found or not assigned to you"], w)

/-- The agent typing handler: forwards only when the ticket is assigned to
    the requesting socket's agent; otherwise silently does nothing. -/
def handleAgentTyping (w : World) (sock : String) (ticketId : TicketId)
    (isTyping : Bool) : List OutEvent × World :=
  match getA w.tm.tickets ticketId, getA w.socketAgent sock with
  | some ticket, some agentId =>
    if ticket.assignedAgent = some agentId then
      ([OutEvent.typingToCustomer ticket.customerSocketId isTyping], w)
    else ([], w)
  | _, _ => ([], w)

/-- The update_ticket_status handler: when the ticket is assigned to the
    requesting agent it stores the given status verbatim and, for "closed",
    additionally runs closeTicket and notifies the customer; otherwise it
    silently does nothing. -/
def handleUpdateTicketStatus (w : World) (sock : String) (ticketId : TicketId)
    (status : String) (now : Nat) : List OutEvent × World :=
  match getA w.tm.tickets ticketId, getA w.socketAgent sock with
  | some ticket, some agentId =>
    if ticket.assignedAgent = some agentId then
      let ticket' := { ticket with status := status, updatedAt := now }
      let tm := { w.tm with tickets := setA w.tm.tickets ticketId ticket' }
      let outs := [OutEvent.ticketUpdated sock ticketId status]
      if status = "closed" then
        let tm' := (tm.closeTicket ticketId agentId now).2
        (outs ++ [OutEvent.chatResponse ticket.customerSocketId sessionClosedMessage
            "system" "session_closed"],
         { w with tm := tm' })
      else (outs, { w with tm := tm })
    else ([], w)
  | _, _ => ([], w)

/-- The update_status handler: updates the agent's own availability. -/
def handleUpdateStatus (w : World) (sock status : String) (now : Nat) :
    List OutEvent × World :=
  match getA w.socketAgent sock with
  | some agentId =>
    match getA w.tm.agentSockets agentId with
    | some info =>
      let info' := { info with status := status, lastActivity := now }
      ([OutEvent.agentStatusChange agentId info.name status],
       { w with tm := { w.tm with agentSockets := setA w.tm.agentSockets agentId info' } })
    | none => ([], w)
  | none => ([], w)

/-- The get_ticket_details handler: when the ticket is assigned to the
    requesting agent it marks customer messages read and replies with the
    ticket; otherwise it silently does nothing. -/
def handleGetTicketDetails (w : World) (sock : String) (ticketId : TicketId) :
    List OutEvent × World :=
  match getA w.tm.tickets ticketId, getA w.socketAgent sock with
  | some ticket, some agentId =>
    if ticket.assignedAgent = some agentId then
      let readMessages := ticket.messages.map
        (fun m => if m.sender == "customer" then { m with read := true } else m)
      let ticket' := { ticket with messages := readMessages }
      ([OutEvent.ticketDetails sock ticket'],
       { w with tm := { w.tm with tickets := setA w.tm.tickets ticketId ticket' } })
    else ([], w)
  | _, _ => ([], w)

/-- The agent disconnect handler: when the socket is bound to an agent whose
    record exists, the record's status is set to "offline" and the change is
    broadcast, and then the record is deleted from agentSockets. Assignments
    (agentTickets, ticketAssignments) are never touched. -/
def handleAgentDisconnect (w : World) (sock : String) : List OutEvent × World :=
  match getA w.socketAgent sock with
  | none => ([], { w with socketAgent := delA w.socketAgent sock })
  | some agentId =>
    let (outs, tm) :=
      match getA w.tm.agentSockets agentId with
      | some info =>
        let info' : AgentInfo := { info with status := "offline" }
        ([OutEvent.agentStatusChange agentId info.name "offline"],
         { w.tm with agentSockets := setA w.tm.agentSockets agentId info' })
      | none => ([], w.tm)
    let tm := { tm with agentSockets := delA tm.agentSockets agentId }
    (outs, { w with tm := tm, socketAgent := delA w.socketAgent sock })

/-- Inbound events of the two socket namespaces. -/
inductive Event where
  | customerConnect (socketId : String)
  | chatMessage (socketId message : String)
  | customerTyping (socketId : String) (isTyping : Bool)
  | customerDisconnect (socketId : String)
  | agentAuthenticate (sock agentId agentName department : String)
  | agentSendMessage (sock : String) (ticketId : TicketId) (message : String)
  | agentTyping (sock : String) (ticketId : TicketId) (isTyping : Bool)
  | agentUpdateTicketStatus (sock : String) (ticketId : TicketId) (status : String)
  | agentUpdateStatus (sock status : String)
  | agentGetTicketDetails (sock : String) (ticketId : TicketId)
  | agentDisconnect (sock : String)
deriving DecidableEq, Repr

/-- One event processed to completion (the single-threaded event loop); the
    clock advances so later events carry later Date.now values. -/
def World.step (w : World) (e : Event) : List OutEvent × World :=
  let now := w.clock
  let stepped : List OutEvent × World :=
    match e with
    | .customerConnect sid =>
      let r := handleCustomerConnect w.tm sid now; (r.1, { w with tm := r.2 })
    | .chatMessage sid msg =>
      let r := handleChatMessage w.tm sid msg now; (r.1, { w with tm := r.2 })
    | .customerTyping sid b =>
      let r := handleCustomerTyping w.tm sid b; (r.1, { w with tm := r.2 })
    | .customerDisconnect sid =>
      let r := handleCustomerDisconnect w.tm sid now; (r.1, { w with tm := r.2 })
    | .agentAuthenticate sock aid name dept => handleAuthenticate w sock aid name dept now
    | .agentSendMessage sock tid msg => handleSendMessage w sock tid msg now
    | .agentTyping sock tid b => handleAgentTyping w sock tid b
    | .agentUpdateTicketStatus sock tid s => handleUpdateTicketStatus w sock tid s now
    | .agentUpdateStatus sock s => handleUpdateStatus w sock s now
    | .agentGetTicketDetails sock tid => handleGetTicketDetails w sock tid
    | .agentDisconnect sock => handleAgentDisconnect w sock
  (stepped.1, { stepped.2 with clock := w.clock + 1 })

/-- A whole inbound event trace processed from a given world. -/
def World.run (w : World) (events : List Event) : World :=
  events.foldl (fun w e => (w.step e).2) w

/-- The filter stage of GET /api/tickets. -/
def filteredTickets (tm : TicketManager) (statusFilter agentFilter : Option String) :
    List Ticket :=
  let tickets := tm.tickets.map Prod.snd
  let tickets :=
    match statusFilter with
    | some s => tickets.filter (fun t => t.status == s)
    | none => tickets
  match agentFilter with
  | some a => tickets.filter (fun t => t.assignedAgent == some a)
  | none => tickets

/-- GET /api/tickets: the filtered tickets sorted by descending updatedAt,
    truncated to the limit and summarised; total is computed from the
    truncated page. -/
def listTicketsEndpoint (tm : TicketManager) (statusFilter agentFilter : Option String)
    (limit : Nat) : List TicketSummary × Nat :=
  let page := (((filteredTickets tm statusFilter agentFilter).insertionSort
      (fun a b => b.updatedAt ≤ a.updatedAt)).take limit).map
      TicketManager.getTicketSummary
  (page, page.length)

/-! Association list and set lemmas. -/

theorem getA_mem {κ α : Type} [DecidableEq κ] {m : List (κ × α)} {k : κ} {v : α}
    (h : getA m k = some v) : (k, v) ∈ m := by
  induction m with
  | nil => simp [getA] at h
  | cons p rest ih =>
    obtain ⟨k', v'⟩ := p
    by_cases hk : k' = k
    · subst hk
      simp only [getA, if_pos rfl] at h
      injection h with h
      subst h
      exact List.mem_cons_self _ _
    · simp only [getA, if_neg hk] at h
      exact List.mem_cons_of_mem _ (ih h)

theorem getA_setA_self {κ α : Type} [DecidableEq κ] (m : List (κ × α)) (k : κ) (v : α) :
    getA (setA m k v) k = some v := by
  induction m with
  | nil => simp [setA, getA]
  | cons p rest ih =>
    obtain ⟨k', v'⟩ := p
    by_cases hk : k' = k
    · simp [setA, getA, hk]
    · simp [setA, getA, hk, ih]

theorem getA_setA_ne {κ α : Type} [DecidableEq κ] (m : List (κ × α)) (k k' : κ) (v : α)
    (h : k' ≠ k) : getA (setA m k v) k' = getA m k' := by
  have h' : k ≠ k' := Ne.symm h
  induction m with
  | nil => simp [setA, getA, h']
  | cons p rest ih =>
    obtain ⟨ka, va⟩ := p
    by_cases hk : ka = k
    · subst hk
      simp [setA, getA, h']
    · by_cases hk' : ka = k'
      · subst hk'
        simp [setA, getA, h, hk]
      · simp [setA, getA, hk, hk', ih]

theorem mem_setA {κ α : Type} [DecidableEq κ] {m : List (κ × α)} {k : κ} {v : α}
    {p : κ × α} (h : p ∈ setA m k v) : p = (k, v) ∨ p ∈ m := by
  induction m with
  | nil => simpa [setA] using h
  | cons q rest ih =>
    obtain ⟨ka, va⟩ := q
    by_cases hk : ka = k
    · rcases List.mem_cons.mp (by simpa [setA, hk] using h) with h1 | h1
      · exact Or.inl h1
      · exact Or.inr (List.mem_cons_of_mem _ h1)
    · rcases List.mem_cons.mp (by simpa [setA, hk] using h) with h1 | h1
      · exact Or.inr (h1 ▸ List.mem_cons_self _ _)
      · rcases ih h1 with h2 | h2
        · exact Or.inl h2
        · exact Or.inr (List.mem_cons_of_mem _ h2)

theorem setA_of_getA_none {κ α : Type} [DecidableEq κ] {m : List (κ × α)} {k : κ}
    (v : α) (h : getA m k = none) : setA m k v = m ++ [(k, v)] := by
  induction m with
  | nil => simp [setA]
  | cons p rest ih =>
    obtain ⟨ka, va⟩ := p
    by_cases hk : ka = k
    · simp [getA, hk] at h
    · simp only [getA, if_neg hk] at h
      simp [setA, hk, ih h]

theorem keys_setA_of_getA_some {κ α : Type} [DecidableEq κ] {m : List (κ × α)} {k : κ}
    {w : α} (v : α) (h : getA m k = some w) :
    (setA m k v).map Prod.fst = m.map Prod.fst := by
  induction m with
  | nil => simp [getA] at h
  | cons p rest ih =>
    obtain ⟨ka, va⟩ := p
    by_cases hk : ka = k
    · simp [setA, hk]
    · simp only [getA, if_neg hk] at h
      simp [setA, hk, ih h]

theorem getA_delA_self {κ α : Type} [DecidableEq κ] (m : List (κ × α)) (k : κ) :
    getA (delA m k) k = none := by
  induction m with
  | nil => simp [delA, getA]
  | cons p rest ih =>
    obtain ⟨ka, va⟩ := p
    by_cases hk : ka = k
    · simpa [delA, hk] using ih
    · simpa [delA, getA, hk] using ih

theorem getA_append_right {κ α : Type} [DecidableEq κ] {m : List (κ × α)} {k : κ}
    (v : α) (h : getA m k = none) : getA (m ++ [(k, v)]) k = some v := by
  induction m with
  | nil => simp [getA]
  | cons p rest ih =>
    obtain ⟨ka, va⟩ := p
    by_cases hk : ka = k
    · simp [getA, hk] at h
    · simp only [getA, if_neg hk] at h
      simpa [getA, hk] using ih h

theorem mem_addSet_self {α : Type} [DecidableEq α] (s : List α) (x : α) :
    x ∈ addSet s x := by
  by_cases h : x ∈ s <;> simp [addSet, h]

theorem mem_addSet_of_mem {α : Type} [DecidableEq α] {s : List α} {y : α} (x : α)
    (h : y ∈ s) : y ∈ addSet s x := by
  by_cases hx : x ∈ s <;> simp [addSet, hx, h]

theorem not_mem_delSet {α : Type} [DecidableEq α] (s : List α) (x : α) :
    x ∉ delSet s x := by
  simp [delSet]

/-! Concrete states used by witnesses. -/

/-- A registered agent record used in witness states. -/
def agentA : AgentInfo :=
  { id := "A1", socketId := "s1", name := "Alice", department := "General Support"
    status := "available", connectedAt := 0, lastActivity := 0 }

/-- A second registered agent record used in witness states. -/
def agentB : AgentInfo :=
  { id := "A2", socketId := "s2", name := "Bob", department := "General Support"
    status := "available", connectedAt := 0, lastActivity := 0 }

/-- An open, unassigned ticket used in witness states. -/
def ticketW : Ticket :=
  { id := ⟨0, 1⟩, customerId := "c1", customerSocketId := "c1", status := "open"
    priority := "normal", assignedAgent := none, createdAt := 0, updatedAt := 0
    messages := [], customerInfoConnectedAt := 0, customerInfoLastSeen := 0 }

/-- A ticket assigned to agent A1, used in witness states. -/
def ticketA : Ticket :=
  { id := ⟨0, 1⟩, customerId := "c1", customerSocketId := "c1", status := "assigned"
    priority := "normal", assignedAgent := some "A1", createdAt := 0, updatedAt := 0
    messages := [], customerInfoConnectedAt := 0, customerInfoLastSeen := 0 }

/-- A manager holding one open unassigned ticket. -/
def tmW : TicketManager :=
  { tickets := [(⟨0, 1⟩, ticketW)], customerSockets := [], agentSockets := []
    ticketAssignments := [], agentTickets := [], ticketCounter := 2 }

/-- A manager holding one ticket assigned to A1, with both A1 and A2
    registered and the ticket indexed in both directions. -/
def tmA : TicketManager :=
  { tickets := [(⟨0, 1⟩, ticketA)], customerSockets := []
    agentSockets := [("A1", agentA), ("A2", agentB)]
    ticketAssignments := [(⟨0, 1⟩, "A1")]
    agentTickets := [("A1", [⟨0, 1⟩])], ticketCounter := 2 }

/-- A manager holding two tickets, used for the list-endpoint witness. -/
def tmTwo : TicketManager :=
  { tickets := [(⟨0, 1⟩, ticketW), (⟨0, 2⟩, { ticketA with id := ⟨0, 2⟩ })]
    customerSockets := [], agentSockets := [("A1", agentA)]
    ticketAssignments := [(⟨0, 2⟩, "A1")]
    agentTickets := [("A1", [⟨0, 2⟩])], ticketCounter := 3 }

/-! Claim C4: addMessage. -/

/-- C4: addMessage on an unknown ticket id returns null and changes no state;
    on a known ticket it returns the appended message, grows the message list
    by exactly one with the new message last, and leaves updatedAt no smaller
    than before whenever the Date.now value is at least the old updatedAt
    (the wall clock never runs backwards between the two calls). -/
theorem addMessage_spec (tm : TicketManager) (ticketId : TicketId)
    (content sender : String) (senderId : Option String) (now : Nat) :
    (getA tm.tickets ticketId = none →
      tm.addMessage ticketId content sender senderId now = (none, tm)) ∧
    (∀ t, getA tm.tickets ticketId = some t →
      ∃ m tm', tm.addMessage ticketId content sender senderId now = (some m, tm') ∧
        ∃ t', getA tm'.tickets ticketId = some t' ∧
          t'.messages.length = t.messages.length + 1 ∧
          t'.messages.getLast? = some m ∧
          (t.updatedAt ≤ now → t.updatedAt ≤ t'.updatedAt)) := by
  constructor
  · intro h
    simp [TicketManager.addMessage, h]
  · intro t ht
    simp only [TicketManager.addMessage, ht]
    refine ⟨_, _, rfl, _, getA_setA_self _ _ _, by simp, by simp, fun h => h⟩

/-- Witness for C4 at a concrete manager and ticket. -/
theorem addMessage_spec_witness :
    ∃ m tm', tmW.addMessage ⟨0, 1⟩ "hi" "customer" none 5 = (some m, tm') ∧
      ∃ t', getA tm'.tickets ⟨0, 1⟩ = some t' ∧
        t'.messages.length = ticketW.messages.length + 1 ∧
        t'.messages.getLast? = some m ∧
        (ticketW.updatedAt ≤ 5 → ticketW.updatedAt ≤ t'.updatedAt) :=
  (addMessage_spec tmW ⟨0, 1⟩ "hi" "customer" none 5).2 ticketW (by rfl)

/-! Claim C5: closeTicket. -/

/-- C5: closeTicket on a present ticket sets status closed, stamps
    closedAt/closedBy, and leaves the ticket id absent from the former
    assigned agent's agentTickets set and from ticketAssignments; on an
    unknown id it returns false and changes nothing. -/
theorem closeTicket_spec (tm : TicketManager) (ticketId : TicketId)
    (closedBy : String) (now : Nat) :
    (getA tm.tickets ticketId = none →
      tm.closeTicket ticketId closedBy now = (false, tm)) ∧
    (∀ t, getA tm.tickets ticketId = some t →
      ∃ tm', tm.closeTicket ticketId closedBy now = (true, tm') ∧
        (∃ t', getA tm'.tickets ticketId = some t' ∧ t'.status = "closed" ∧
          t'.closedAt = some now ∧ t'.closedBy = some closedBy) ∧
        getA tm'.ticketAssignments ticketId = none ∧
        ∀ a, t.assignedAgent = some a →
          ticketId ∉ (getA tm'.agentTickets a).getD []) := by
  constructor
  · intro h
    simp [TicketManager.closeTicket, h]
  · intro t ht
    simp only [TicketManager.closeTicket, ht]
    refine ⟨_, rfl, ⟨_, getA_setA_self _ _ _, rfl, rfl, rfl⟩, getA_delA_self _ _, ?_⟩
    intro a ha
    simp only [ha]
    cases hs : getA tm.agentTickets a with
    | none => simp [hs]
    | some s => simp [hs, getA_setA_self, not_mem_delSet]

/-- Witness for C5 at a concrete manager and assigned ticket. -/
theorem closeTicket_spec_witness :
    ∃ tm', tmA.closeTicket ⟨0, 1⟩ "A1" 7 = (true, tm') ∧
      (∃ t', getA tm'.tickets ⟨0, 1⟩ = some t' ∧ t'.status = "closed" ∧
        t'.closedAt = some 7 ∧ t'.closedBy = some "A1") ∧
      getA tm'.ticketAssignments ⟨0, 1⟩ = none ∧
      ∀ a, ticketA.assignedAgent = some a →
        (⟨0, 1⟩ : TicketId) ∉ (getA tm'.agentTickets a).getD [] :=
  (closeTicket_spec tmA ⟨0, 1⟩ "A1" 7).2 ticketA (by rfl)

/-! Claim C6: re-assignment leaves the prior agent's slot. -/

/-- C6: assignTicket on a ticket already assigned to a1, targeting a distinct
    existing agent a2, overwrites the forward mapping to a2 and adds the id to
    a2's set, while the id also stays in a1's set. -/
theorem assignTicket_reassign (tm : TicketManager) (ticketId : TicketId)
    (a1 a2 : String) (now : Nat) (t : Ticket)
    (ht : getA tm.tickets ticketId = some t)
    (hfw : getA tm.ticketAssignments ticketId = some a1)
    (hmem : ticketId ∈ (getA tm.agentTickets a1).getD [])
    (hne : a2 ≠ a1)
    (ha1 : (getA tm.agentSockets a1).isSome)
    (ha2 : (getA tm.agentSockets a2).isSome) :
    ∃ tm', tm.assignTicket ticketId a2 now = (true, tm') ∧
      getA tm'.ticketAssignments ticketId = some a2 ∧
      ticketId ∈ (getA tm'.agentTickets a2).getD [] ∧
      ticketId ∈ (getA tm'.agentTickets a1).getD [] := by
  obtain ⟨ag2, hag2⟩ := Option.isSome_iff_exists.mp ha2
  simp only [TicketManager.assignTicket, ht, hag2]
  refine ⟨_, rfl, getA_setA_self _ _ _, ?_, ?_⟩
  · simp [getA_setA_self, mem_addSet_self]
  · rw [getA_setA_ne _ a2 a1 _ (Ne.symm hne)]
    exact hmem

/-- Witness for C6 at a concrete manager with two agents. -/
theorem assignTicket_reassign_witness :
    ∃ tm', tmA.assignTicket ⟨0, 1⟩ "A2" 9 = (true, tm') ∧
      getA tm'.ticketAssignments ⟨0, 1⟩ = some "A2" ∧
      (⟨0, 1⟩ : TicketId) ∈ (getA tm'.agentTickets "A2").getD [] ∧
      (⟨0, 1⟩ : TicketId) ∈ (getA tm'.agentTickets "A1").getD [] :=
  assignTicket_reassign tmA ⟨0, 1⟩ "A1" "A2" 9 ticketA (by rfl) (by rfl)
    (by decide) (by decide) (by rfl) (by rfl)

/-! Claim C3: getAvailableAgent. -/

/-- A returned agent is available and of minimal load among availables. -/
theorem getAvailableAgent_some_spec (tm : TicketManager) :
    ∀ a, tm.getAvailableAgent = some a → a.status = "available" ∧
      ∀ b ∈ tm.agentSockets.map Prod.snd, b.status = "available" →
        tm.agentTicketCount a.id ≤ tm.agentTicketCount b.id := by
  haveI htot : IsTotal AgentInfo
      (fun a b => tm.agentTicketCount a.id ≤ tm.agentTicketCount b.id) :=
    ⟨fun a b => Nat.le_total _ _⟩
  haveI htrans : IsTrans AgentInfo
      (fun a b => tm.agentTicketCount a.id ≤ tm.agentTicketCount b.id) :=
    ⟨fun a b c hab hbc => Nat.le_trans hab hbc⟩
  have hsorted := List.sorted_insertionSort
    (fun a b : AgentInfo => tm.agentTicketCount a.id ≤ tm.agentTicketCount b.id)
    ((tm.agentSockets.map Prod.snd).filter (fun a => a.status == "available"))
  intro a ha
  simp only [TicketManager.getAvailableAgent] at ha
  cases hm : ((tm.agentSockets.map Prod.snd).filter
      (fun a => a.status == "available")).insertionSort
      (fun a b => tm.agentTicketCount a.id ≤ tm.agentTicketCount b.id) with
  | nil => rw [hm] at ha; simp at ha
  | cons hd tl =>
    rw [hm] at ha
    simp only [List.head?_cons, Option.some.injEq] at ha
    have h0 : hd ∈ ((tm.agentSockets.map Prod.snd).filter
        (fun x => x.status == "available")).insertionSort
        (fun a b => tm.agentTicketCount a.id ≤ tm.agentTicketCount b.id) := by
      rw [hm]
      exact List.mem_cons_self hd tl
    have hmemf : a ∈ (tm.agentSockets.map Prod.snd).filter
        (fun x => x.status == "available") := by
      rw [← ha]
      exact (List.mem_insertionSort _).mp h0
    have havail : a.status = "available" := by
      have := List.of_mem_filter hmemf
      simpa using this
    refine ⟨havail, fun b hb hbavail => ?_⟩
    have hbf : b ∈ (tm.agentSockets.map Prod.snd).filter
        (fun x => x.status == "available") :=
      List.mem_filter.mpr ⟨hb, by simp [hbavail]⟩
    have hbs : b ∈ hd :: tl := by
      rw [← hm]
      exact (List.mem_insertionSort _).mpr hbf
    have hpair : List.Pairwise
        (fun a b => tm.agentTicketCount a.id ≤ tm.agentTicketCount b.id)
        (hd :: tl) := by
      rw [← hm]
      exact hsorted
    rcases List.mem_cons.mp hbs with h1 | h1
    · rw [← ha, h1]
    · rw [← ha]
      exact (List.pairwise_cons.mp hpair).1 b h1

/-- getAvailableAgent returns null exactly when no agent is available. -/
theorem getAvailableAgent_none_iff (tm : TicketManager) :
    tm.getAvailableAgent = none ↔
      ∀ b ∈ tm.agentSockets.map Prod.snd, b.status ≠ "available" := by
  simp only [TicketManager.getAvailableAgent]
  rw [List.head?_eq_none_iff]
  constructor
  · intro h b hb hbavail
    have hnil : (tm.agentSockets.map Prod.snd).filter
        (fun x => x.status == "available") = [] := by
      have hlen := (List.perm_insertionSort
        (fun a b : AgentInfo => tm.agentTicketCount a.id ≤ tm.agentTicketCount b.id)
        ((tm.agentSockets.map Prod.snd).filter
          (fun x => x.status == "available"))).length_eq
      rw [h] at hlen
      exact List.eq_nil_of_length_eq_zero hlen.symm
    have := List.filter_eq_nil_iff.mp hnil b hb
    simp [hbavail] at this
  · intro h
    have hnil : (tm.agentSockets.map Prod.snd).filter
        (fun x => x.status == "available") = [] :=
      List.filter_eq_nil_iff.mpr (fun b hb => by simp [h b hb])
    rw [hnil]
    rfl

/-- C3: getAvailableAgent never returns a non-available agent; a returned
    agent has minimal assigned-ticket count among all agents with status
    available; and it returns null exactly when no registered agent has
    status available. -/
theorem getAvailableAgent_spec (tm : TicketManager) :
    (∀ a, tm.getAvailableAgent = some a → a.status = "available" ∧
      ∀ b ∈ tm.agentSockets.map Prod.snd, b.status = "available" →
        tm.agentTicketCount a.id ≤ tm.agentTicketCount b.id) ∧
    (tm.getAvailableAgent = none ↔
      ∀ b ∈ tm.agentSockets.map Prod.snd, b.status ≠ "available") :=
  ⟨getAvailableAgent_some_spec tm, getAvailableAgent_none_iff tm⟩

/-- Witness for C3: two available agents, the less-loaded one is picked. -/
theorem getAvailableAgent_spec_witness :
    tmA.getAvailableAgent = some agentB ∧ agentB.status = "available" ∧
      ∀ b ∈ tmA.agentSockets.map Prod.snd, b.status = "available" →
        tmA.agentTicketCount agentB.id ≤ tmA.agentTicketCount b.id := by
  have h : tmA.getAvailableAgent = some agentB := by decide
  exact ⟨h, ((getAvailableAgent_spec tmA).1 agentB h).1,
    ((getAvailableAgent_spec tmA).1 agentB h).2⟩

/-! Claim C10: the admin list endpoint's total field. -/

/-- C10: the total field of GET /api/tickets equals the length of the
    returned (filtered, sorted, truncated) page, so whenever more than limit
    tickets match the filters, total equals limit rather than the match
    count. -/
theorem listTickets_total (tm : TicketManager) (statusFilter agentFilter : Option String)
    (limit : Nat) :
    (listTicketsEndpoint tm statusFilter agentFilter limit).2 =
      (listTicketsEndpoint tm statusFilter agentFilter limit).1.length ∧
    (limit < (filteredTickets tm statusFilter agentFilter).length →
      (listTicketsEndpoint tm statusFilter agentFilter limit).2 = limit) := by
  refine ⟨rfl, fun h => ?_⟩
  have hlen := (List.perm_insertionSort
    (fun a b : Ticket => b.updatedAt ≤ a.updatedAt)
    (filteredTickets tm statusFilter agentFilter)).length_eq
  simp only [listTicketsEndpoint, List.length_map, List.length_take, hlen]
  omega

/-- Witness for C10: two matching tickets, limit one. -/
theorem listTickets_total_witness :
    (listTicketsEndpoint tmTwo none none 1).2 =
      (listTicketsEndpoint tmTwo none none 1).1.length ∧
    (listTicketsEndpoint tmTwo none none 1).2 = 1 :=
  ⟨(listTickets_total tmTwo none none 1).1,
   (listTickets_total tmTwo none none 1).2 (by decide)⟩

/-- A manager whose only registered agent is busy, used by the C9 witness. -/
def tmBusy : TicketManager :=
  { tickets := [], customerSockets := []
    agentSockets := [("A1", { agentA with status := "busy" })]
    ticketAssignments := [], agentTickets := [], ticketCounter := 1 }

/-! Claim C9: first message with no available agent. -/

/-- When no registered agent is available, getAvailableAgent is null. -/
theorem getAvailableAgent_eq_none_of (tm : TicketManager)
    (hagents : ∀ a ∈ tm.agentSockets.map Prod.snd, a.status ≠ "available") :
    tm.getAvailableAgent = none :=
  (getAvailableAgent_none_iff tm).mpr hagents

/-- The no-agents case of the chat_message core. -/
theorem chatMessageCore_noAgents (tm : TicketManager) (sid msg : String) (now : Nat)
    (hno : tm.getTicketByCustomer sid = none)
    (hagents : ∀ a ∈ tm.agentSockets.map Prod.snd, a.status ≠ "available") :
    ∃ tid t,
      (chatMessageCore tm sid msg now).1 =
        [OutEvent.callbackAck sid tid,
         OutEvent.chatResponse sid noAgentsMessage "system" "no_agents_available"] ∧
      getA (chatMessageCore tm sid msg now).2.tickets tid = some t ∧
      t.status = "open" ∧ t.assignedAgent = none ∧
      t.messages = [{ id := TicketManager.generateMessageId now, content := msg
                      sender := "customer", senderId := none, timestamp := now
                      read := false }] := by
  simp only [chatMessageCore, hno]
  simp only [TicketManager.createTicket, TicketManager.generateTicketId]
  rw [getAvailableAgent_eq_none_of]
  · exact ⟨_, _, by simp, getA_setA_self _ _ _, rfl, rfl, rfl⟩
  · exact hagents

/-- C9: a chat_message from a customer with no existing open/assigned ticket,
    when no registered agent has status available, replies (after the ack
    callback) with a chat_response of messageType no_agents_available, and the
    created ticket is open, unassigned, and holds exactly the one recorded
    customer message. -/
theorem chatMessage_noAgents (tm : TicketManager) (sid msg : String) (now : Nat)
    (hno : tm.getTicketByCustomer sid = none)
    (hagents : ∀ a ∈ tm.agentSockets.map Prod.snd, a.status ≠ "available") :
    ∃ tid t,
      (handleChatMessage tm sid msg now).1 =
        [OutEvent.callbackAck sid tid,
         OutEvent.chatResponse sid noAgentsMessage "system" "no_agents_available"] ∧
      getA (handleChatMessage tm sid msg now).2.tickets tid = some t ∧
      t.status = "open" ∧ t.assignedAgent = none ∧
      t.messages = [{ id := TicketManager.generateMessageId now, content := msg
                      sender := "customer", senderId := none, timestamp := now
                      read := false }] := by
  cases hcs : getA tm.customerSockets sid with
  | none =>
    simp only [handleChatMessage, hcs]
    exact chatMessageCore_noAgents tm sid msg now hno hagents
  | some info =>
    simp only [handleChatMessage, hcs]
    refine chatMessageCore_noAgents _ sid msg now ?_ hagents
    simpa [TicketManager.getTicketByCustomer] using hno

/-! Claim C8: agent events on a ticket not assigned to the requester. -/

/-- A reachable world: A1 authenticated and assigned the ticket of customer
    c1, and a second agent A2 authenticated on socket s2. -/
def wC8 : World := World.run World.init
  [Event.agentAuthenticate "s1" "A1" "Alice" "",
   Event.customerConnect "c1",
   Event.chatMessage "c1" "Hello",
   Event.agentAuthenticate "s2" "A2" "Bob" ""]

/-- The ticket stored in wC8 (created at clock 2, assigned to A1). -/
def tC8 : Ticket :=
  { id := ⟨2, 1⟩, customerId := "c1", customerSocketId := "c1", status := "assigned"
    priority := "normal", assignedAgent := some "A1", createdAt := 2, updatedAt := 2
    messages := [{ id := 2, content := "Hello", sender := "customer", senderId := none
                   timestamp := 2, read := false }]
    customerInfoConnectedAt := 2, customerInfoLastSeen := 2 }

/-- C8 fails as stated: agent A2 sends update_ticket_status for an existing
    ticket assigned to A1, and the handler emits no event at all - in
    particular no generic error event - contradicting the claim that every
    one of the four agent events replies with an error in this situation. -/
theorem updateTicketStatus_no_error_reply :
    getA wC8.tm.tickets ⟨2, 1⟩ = some tC8 ∧
    getA wC8.socketAgent "s2" = some "A2" ∧
    tC8.assignedAgent ≠ some "A2" ∧
    (wC8.step (Event.agentUpdateTicketStatus "s2" ⟨2, 1⟩ "closed")).1 = [] ∧
    ¬ ∃ m, OutEvent.errorEvent "s2" m ∈
      (wC8.step (Event.agentUpdateTicketStatus "s2" ⟨2, 1⟩ "closed")).1 := by
  have h : (wC8.step (Event.agentUpdateTicketStatus "s2" ⟨2, 1⟩ "closed")).1 = [] := by
    decide
  exact ⟨by decide, by decide, by decide, h, fun ⟨m, hm⟩ => by simp [h] at hm⟩

/-- C8 (amended): for each of the four agent events naming an existing ticket
    that is not assigned to the requesting agent, no ticket, message, or
    assignment state changes; send_message replies with a generic error
    event, while update_ticket_status, typing, and get_ticket_details emit
    nothing at all. -/
theorem agentEvents_unassigned (w : World) (sock aid : String) (tid : TicketId)
    (msg s : String) (isTyping : Bool) (t : Ticket) (now : Nat)
    (hb : getA w.socketAgent sock = some aid)
    (ht : getA w.tm.tickets tid = some t)
    (hna : t.assignedAgent ≠ some aid) :
    ((handleSendMessage w sock tid msg now).1 =
        [OutEvent.errorEvent sock "Ticket not found or not assigned to you"] ∧
      (handleSendMessage w sock tid msg now).2 = w) ∧
    ((handleUpdateTicketStatus w sock tid s now).1 = [] ∧
      (handleUpdateTicketStatus w sock tid s now).2 = w) ∧
    ((handleAgentTyping w sock tid isTyping).1 = [] ∧
      (handleAgentTyping w sock tid isTyping).2 = w) ∧
    ((handleGetTicketDetails w sock tid).1 = [] ∧
      (handleGetTicketDetails w sock tid).2 = w) := by
  refine ⟨⟨?_, ?_⟩, ⟨?_, ?_⟩, ⟨?_, ?_⟩, ⟨?_, ?_⟩⟩ <;>
    simp [handleSendMessage, handleUpdateTicketStatus, handleAgentTyping,
      handleGetTicketDetails, hb, ht, hna]

/-- Witness for C8 (amended) at the concrete world wC8. -/
theorem agentEvents_unassigned_witness :
    ((handleSendMessage wC8 "s2" ⟨2, 1⟩ "yo" 4).1 =
        [OutEvent.errorEvent "s2" "Ticket not found or not assigned to you"] ∧
      (handleSendMessage wC8 "s2" ⟨2, 1⟩ "yo" 4).2 = wC8) ∧
    ((handleUpdateTicketStatus wC8 "s2" ⟨2, 1⟩ "closed" 4).1 = [] ∧
      (handleUpdateTicketStatus wC8 "s2" ⟨2, 1⟩ "closed" 4).2 = wC8) ∧
    ((handleAgentTyping wC8 "s2" ⟨2, 1⟩ true).1 = [] ∧
      (handleAgentTyping wC8 "s2" ⟨2, 1⟩ true).2 = wC8) ∧
    ((handleGetTicketDetails wC8 "s2" ⟨2, 1⟩).1 = [] ∧
      (handleGetTicketDetails wC8 "s2" ⟨2, 1⟩).2 = wC8) :=
  agentEvents_unassigned wC8 "s2" "A2" ⟨2, 1⟩ "yo" "closed" true tC8 4
    (by decide) (by decide) (by decide)

/-! Claim C7: agent disconnect and reconnection. -/

/-- A reachable world with one authenticated agent. -/
def wAuth : World := World.run World.init
  [Event.agentAuthenticate "s1" "A1" "Alice" ""]

/-- The world after that agent disconnects. -/
def wC7 : World := World.run World.init
  [Event.agentAuthenticate "s1" "A1" "Alice" "",
   Event.agentDisconnect "s1"]

/-- C7 fails as stated: after the disconnect the registry holds no record for
    agent A1 at all - the handler transiently marks the record offline for
    the broadcast and then deletes it - so no recorded status "offline"
    exists for the agent. -/
theorem agentDisconnect_no_offline_record :
    getA wC7.tm.agentSockets "A1" = none ∧
    ¬ ∃ info, getA wC7.tm.agentSockets "A1" = some info ∧
      info.status = "offline" := by
  have h : getA wC7.tm.agentSockets "A1" = none := by decide
  exact ⟨h, fun ⟨info, hi, _⟩ => by rw [h] at hi; exact Option.noConfusion hi⟩

/-- A summary with a given id occurs in getAgentTickets when the agent's set
    holds a ticket id mapping to an open or assigned stored ticket. -/
theorem mem_getAgentTickets (tm : TicketManager) (aid : String) (tid : TicketId)
    (t : Ticket) (hmem : tid ∈ (getA tm.agentTickets aid).getD [])
    (ht : getA tm.tickets tid = some t)
    (hst : t.status = "open" ∨ t.status = "assigned") :
    ∃ s ∈ tm.getAgentTickets aid, s.id = t.id := by
  refine ⟨TicketManager.getTicketSummary t, ?_, rfl⟩
  simp only [TicketManager.getAgentTickets]
  rw [List.mem_insertionSort]
  refine List.mem_filterMap.mpr ⟨tid, hmem, ?_⟩
  rw [ht]
  rcases hst with h | h <;> simp [h]

/-- C7 (amended): on disconnect the handler broadcasts an offline status
    change and then deletes the agent's registry record outright (no record
    marked offline remains), the ticket, assignment, and agent-set state is
    untouched, and after the same agent id re-authenticates, every ticket of
    its agentTickets set that is stored with status open or assigned occurs
    in the auth_success ticket list. -/
theorem agentDisconnect_preserves_assignments (w : World) (sock aid : String)
    (info : AgentInfo)
    (hb : getA w.socketAgent sock = some aid)
    (hi : getA w.tm.agentSockets aid = some info) :
    (handleAgentDisconnect w sock).1 =
      [OutEvent.agentStatusChange aid info.name "offline"] ∧
    getA (handleAgentDisconnect w sock).2.tm.agentSockets aid = none ∧
    (handleAgentDisconnect w sock).2.tm.agentTickets = w.tm.agentTickets ∧
    (handleAgentDisconnect w sock).2.tm.ticketAssignments = w.tm.ticketAssignments ∧
    (handleAgentDisconnect w sock).2.tm.tickets = w.tm.tickets ∧
    ∀ sock2 name dept : String, ∀ now2 : Nat, aid ≠ "" → name ≠ "" →
      ∀ tid t, getA w.tm.tickets tid = some t →
        tid ∈ (getA w.tm.agentTickets aid).getD [] →
        (t.status = "open" ∨ t.status = "assigned") →
        ∃ tickets stats,
          (handleAuthenticate (handleAgentDisconnect w sock).2 sock2 aid name
              dept now2).1 =
            [OutEvent.authSuccess sock2 aid tickets stats,
             OutEvent.agentStatusChange aid name "available"] ∧
          ∃ s ∈ tickets, s.id = t.id := by
  simp only [handleAgentDisconnect, hb, hi]
  refine ⟨trivial, getA_delA_self _ _, trivial, trivial, trivial, ?_⟩
  intro sock2 name dept now2 haid hname tid t ht hmem hst
  simp only [handleAuthenticate, haid, hname, false_or, if_neg]
  refine ⟨_, _, rfl, ?_⟩
  exact mem_getAgentTickets _ aid tid t hmem ht hst

/-- Witness for C7 (amended): the authenticated agent wAuth disconnects. -/
theorem agentDisconnect_preserves_assignments_witness :
    (handleAgentDisconnect wAuth "s1").1 =
      [OutEvent.agentStatusChange "A1" "Alice" "offline"] ∧
    getA (handleAgentDisconnect wAuth "s1").2.tm.agentSockets "A1" = none ∧
    (handleAgentDisconnect wAuth "s1").2.tm.agentTickets = wAuth.tm.agentTickets :=
  ⟨(agentDisconnect_preserves_assignments wAuth "s1" "A1" agentA (by decide)
      (by decide)).1,
   (agentDisconnect_preserves_assignments wAuth "s1" "A1" agentA (by decide)
      (by decide)).2.1,
   (agentDisconnect_preserves_assignments wAuth "s1" "A1" agentA (by decide)
      (by decide)).2.2.1⟩

/-- Witness for C9 at a concrete manager with one unavailable agent. -/
theorem chatMessage_noAgents_witness :
    ∃ tid t,
      (handleChatMessage tmBusy "c9" "Hello" 4).1 =
        [OutEvent.callbackAck "c9" tid,
         OutEvent.chatResponse "c9" noAgentsMessage "system" "no_agents_available"] ∧
      getA (handleChatMessage tmBusy "c9" "Hello" 4).2.tickets tid = some t ∧
      t.status = "open" ∧ t.assignedAgent = none ∧
      t.messages = [{ id := TicketManager.generateMessageId 4, content := "Hello"
                      sender := "customer", senderId := none, timestamp := 4
                      read := false }] :=
  chatMessage_noAgents tmBusy "c9" "Hello" 4 (by rfl) (by decide)

/-! Claim C1: the status/assignedAgent/index equivalence. -/

/-- The claimed three-way equivalence, for every stored ticket: status is
    "assigned" iff assignedAgent is non-null iff a matching entry exists in
    both directions of the ticket-agent index. -/
def assignedEquiv (tm : TicketManager) : Prop :=
  ∀ p ∈ tm.tickets,
    ((p : TicketId × Ticket).2.status = "assigned" ↔ p.2.assignedAgent ≠ none) ∧
    (p.2.status = "assigned" ↔ ∃ a, p.2.assignedAgent = some a ∧
      getA tm.ticketAssignments p.1 = some a ∧
      p.1 ∈ (getA tm.agentTickets a).getD [])

/-- The event trace reaching the violating state: a ticket is created for c1,
    assigned to A1, then closed by A1 through update_ticket_status. -/
def esC1 : List Event :=
  [Event.agentAuthenticate "s1" "A1" "Alice" "",
   Event.customerConnect "c1",
   Event.chatMessage "c1" "Hello",
   Event.agentUpdateTicketStatus "s1" ⟨2, 1⟩ "closed"]

/-- The ticket stored after esC1: closeTicket cleared both index directions
    and set status closed, but left assignedAgent non-null. -/
def tC1 : Ticket :=
  { id := ⟨2, 1⟩, customerId := "c1", customerSocketId := "c1", status := "closed"
    priority := "normal", assignedAgent := some "A1", createdAt := 2, updatedAt := 3
    messages := [{ id := 2, content := "Hello", sender := "customer", senderId := none
                   timestamp := 2, read := false }]
    customerInfoConnectedAt := 2, customerInfoLastSeen := 2
    closedAt := some 3, closedBy := some "A1" }

/-- C1 fails on the code: in the reachable state after esC1 the stored ticket
    has status "closed" while assignedAgent is still some A1 (closeTicket
    never clears assignedAgent), violating the claimed equivalence. -/
theorem closeTicket_breaks_equivalence :
    ¬ assignedEquiv (World.run World.init esC1).tm := by
  intro h
  have hmem : ((⟨2, 1⟩ : TicketId), tC1) ∈ (World.run World.init esC1).tm.tickets := by
    decide
  have h1 := (h _ hmem).1
  exact absurd (h1.mpr (by decide)) (by decide)

/-- The one direction of the equivalence that is invariant: status "assigned"
    implies a non-null assignedAgent. -/
def statusImpliesAgent (l : List (TicketId × Ticket)) : Prop :=
  ∀ p ∈ l, (p : TicketId × Ticket).2.status = "assigned" → p.2.assignedAgent ≠ none

theorem statusImpliesAgent_setA (l : List (TicketId × Ticket)) (k : TicketId)
    (v : Ticket) (h : statusImpliesAgent l)
    (hv : v.status = "assigned" → v.assignedAgent ≠ none) :
    statusImpliesAgent (setA l k v) := by
  intro p hp
  rcases mem_setA hp with h1 | h1
  · rw [h1]
    exact hv
  · exact h p h1

theorem statusImpliesAgent_createTicket (tm : TicketManager) (cid csid : String)
    (im : Option String) (now : Nat) (h : statusImpliesAgent tm.tickets) :
    statusImpliesAgent (tm.createTicket cid csid im now).2.tickets := by
  simp only [TicketManager.createTicket, TicketManager.generateTicketId]
  exact statusImpliesAgent_setA _ _ _ h (fun hst => by simp at hst)

theorem statusImpliesAgent_addMessage (tm : TicketManager) (tid : TicketId)
    (content sender : String) (senderId : Option String) (now : Nat)
    (h : statusImpliesAgent tm.tickets) :
    statusImpliesAgent (tm.addMessage tid content sender senderId now).2.tickets := by
  cases ht : getA tm.tickets tid with
  | none => simpa [TicketManager.addMessage, ht] using h
  | some t =>
    simp only [TicketManager.addMessage, ht]
    exact statusImpliesAgent_setA _ _ _ h (fun hst => h (tid, t) (getA_mem ht) hst)

theorem statusImpliesAgent_assignTicket (tm : TicketManager) (tid : TicketId)
    (aid : String) (now : Nat) (h : statusImpliesAgent tm.tickets) :
    statusImpliesAgent (tm.assignTicket tid aid now).2.tickets := by
  cases ht : getA tm.tickets tid with
  | none => simpa [TicketManager.assignTicket, ht] using h
  | some t =>
    cases ha : getA tm.agentSockets aid with
    | none => simpa [TicketManager.assignTicket, ht, ha] using h
    | some ag =>
      simp only [TicketManager.assignTicket, ht, ha]
      exact statusImpliesAgent_setA _ _ _ h (fun _ => by simp)

theorem statusImpliesAgent_closeTicket (tm : TicketManager) (tid : TicketId)
    (cb : String) (now : Nat) (h : statusImpliesAgent tm.tickets) :
    statusImpliesAgent (tm.closeTicket tid cb now).2.tickets := by
  cases ht : getA tm.tickets tid with
  | none => simpa [TicketManager.closeTicket, ht] using h
  | some t =>
    simp only [TicketManager.closeTicket, ht]
    exact statusImpliesAgent_setA _ _ _ h (fun hst => by simp at hst)

theorem statusImpliesAgent_chatCore (tm : TicketManager) (sid msg : String)
    (now : Nat) (h : statusImpliesAgent tm.tickets) :
    statusImpliesAgent (chatMessageCore tm sid msg now).2.tickets := by
  cases htc : tm.getTicketByCustomer sid with
  | none =>
    simp only [chatMessageCore, htc]
    have hc := statusImpliesAgent_createTicket tm sid sid (some msg) now h
    split
    · split
      · exact statusImpliesAgent_assignTicket _ _ _ _ hc
      · exact hc
    · repeat' split
      all_goals exact hc
  | some t =>
    simp only [chatMessageCore, htc]
    have hc := statusImpliesAgent_addMessage tm t.id msg "customer" none now h
    split
    · split
      · exact statusImpliesAgent_assignTicket _ _ _ _ hc
      · exact hc
    · repeat' split
      all_goals exact hc

theorem statusImpliesAgent_chatMessage (tm : TicketManager) (sid msg : String)
    (now : Nat) (h : statusImpliesAgent tm.tickets) :
    statusImpliesAgent (handleChatMessage tm sid msg now).2.tickets := by
  cases hcs : getA tm.customerSockets sid with
  | none =>
    simp only [handleChatMessage, hcs]
    exact statusImpliesAgent_chatCore _ _ _ _ h
  | some info =>
    simp only [handleChatMessage, hcs]
    exact statusImpliesAgent_chatCore _ _ _ _ h

theorem statusImpliesAgent_sendMessage (w : World) (sock : String) (tid : TicketId)
    (msg : String) (now : Nat) (h : statusImpliesAgent w.tm.tickets) :
    statusImpliesAgent (handleSendMessage w sock tid msg now).2.tm.tickets := by
  simp only [handleSendMessage]
  repeat' split
  all_goals first
    | exact h
    | exact statusImpliesAgent_addMessage _ _ _ _ _ _ h

theorem statusImpliesAgent_updateTicketStatus (w : World) (sock : String)
    (tid : TicketId) (s : String) (now : Nat) (h : statusImpliesAgent w.tm.tickets) :
    statusImpliesAgent (handleUpdateTicketStatus w sock tid s now).2.tm.tickets := by
  cases ht : getA w.tm.tickets tid with
  | none =>
    cases hb : getA w.socketAgent sock with
    | none => simpa [handleUpdateTicketStatus, ht, hb] using h
    | some aid => simpa [handleUpdateTicketStatus, ht, hb] using h
  | some t =>
    cases hb : getA w.socketAgent sock with
    | none => simpa [handleUpdateTicketStatus, ht, hb] using h
    | some aid =>
      simp only [handleUpdateTicketStatus, ht, hb]
      split
      case isTrue hass =>
        have h1 : statusImpliesAgent
            (setA w.tm.tickets tid { t with status := s, updatedAt := now }) :=
          statusImpliesAgent_setA _ _ _ h (fun _ => by simp [hass])
        split
        · exact statusImpliesAgent_closeTicket _ _ _ _ h1
        · exact h1
      case isFalse hass => exact h

theorem statusImpliesAgent_getTicketDetails (w : World) (sock : String)
    (tid : TicketId) (h : statusImpliesAgent w.tm.tickets) :
    statusImpliesAgent (handleGetTicketDetails w sock tid).2.tm.tickets := by
  cases ht : getA w.tm.tickets tid with
  | none =>
    cases hb : getA w.socketAgent sock with
    | none => simpa [handleGetTicketDetails, ht, hb] using h
    | some aid => simpa [handleGetTicketDetails, ht, hb] using h
  | some t =>
    cases hb : getA w.socketAgent sock with
    | none => simpa [handleGetTicketDetails, ht, hb] using h
    | some aid =>
      simp only [handleGetTicketDetails, ht, hb]
      split
      · exact statusImpliesAgent_setA _ _ _ h
          (fun hst => h (tid, t) (getA_mem ht) hst)
      · exact h

/-! Frame lemmas: handlers that never touch the tickets map or counter. -/

theorem customerTyping_frame (tm : TicketManager) (sid : String) (b : Bool) :
    (handleCustomerTyping tm sid b).2 = tm := by
  simp only [handleCustomerTyping]
  repeat' split
  all_goals rfl

theorem agentTyping_frame (w : World) (sock : String) (tid : TicketId) (b : Bool) :
    (handleAgentTyping w sock tid b).2 = w := by
  simp only [handleAgentTyping]
  repeat' split
  all_goals rfl

theorem updateStatus_frame (w : World) (sock s : String) (now : Nat) :
    (handleUpdateStatus w sock s now).2.tm.tickets = w.tm.tickets ∧
    (handleUpdateStatus w sock s now).2.tm.ticketCounter = w.tm.ticketCounter := by
  refine ⟨?_, ?_⟩ <;>
    (simp only [handleUpdateStatus]
     repeat' split
     all_goals rfl)

theorem authenticate_frame (w : World) (sock aid name dept : String) (now : Nat) :
    (handleAuthenticate w sock aid name dept now).2.tm.tickets = w.tm.tickets ∧
    (handleAuthenticate w sock aid name dept now).2.tm.ticketCounter =
      w.tm.ticketCounter := by
  refine ⟨?_, ?_⟩ <;>
    (simp only [handleAuthenticate]
     repeat' split
     all_goals rfl)

theorem agentDisconnect_frame (w : World) (sock : String) :
    (handleAgentDisconnect w sock).2.tm.tickets = w.tm.tickets ∧
    (handleAgentDisconnect w sock).2.tm.ticketCounter = w.tm.ticketCounter := by
  refine ⟨?_, ?_⟩ <;>
    (simp only [handleAgentDisconnect]
     repeat' split
     all_goals rfl)

/-- One step preserves the status-implies-agent invariant. -/
theorem statusImpliesAgent_step (w : World) (e : Event)
    (h : statusImpliesAgent w.tm.tickets) :
    statusImpliesAgent (w.step e).2.tm.tickets := by
  cases e with
  | customerConnect sid => exact h
  | chatMessage sid msg => exact statusImpliesAgent_chatMessage _ _ _ _ h
  | customerTyping sid b =>
    show statusImpliesAgent (handleCustomerTyping w.tm sid b).2.tickets
    rw [customerTyping_frame]
    exact h
  | customerDisconnect sid => exact h
  | agentAuthenticate sock aid name dept =>
    show statusImpliesAgent
      (handleAuthenticate w sock aid name dept w.clock).2.tm.tickets
    rw [(authenticate_frame w sock aid name dept w.clock).1]
    exact h
  | agentSendMessage sock tid msg => exact statusImpliesAgent_sendMessage _ _ _ _ _ h
  | agentTyping sock tid b =>
    show statusImpliesAgent (handleAgentTyping w sock tid b).2.tm.tickets
    rw [agentTyping_frame]
    exact h
  | agentUpdateTicketStatus sock tid s =>
    exact statusImpliesAgent_updateTicketStatus _ _ _ _ _ h
  | agentUpdateStatus sock s =>
    show statusImpliesAgent (handleUpdateStatus w sock s w.clock).2.tm.tickets
    rw [(updateStatus_frame w sock s w.clock).1]
    exact h
  | agentGetTicketDetails sock tid =>
    exact statusImpliesAgent_getTicketDetails _ _ _ h
  | agentDisconnect sock =>
    show statusImpliesAgent (handleAgentDisconnect w sock).2.tm.tickets
    rw [(agentDisconnect_frame w sock).1]
    exact h

/-- C1 (amended): in every reachable state, a ticket with status "assigned"
    has a non-null assignedAgent - each operation preserves this one
    direction - but the claimed three-way equivalence is not invariant:
    closeTicket clears both index directions and sets status "closed" while
    leaving assignedAgent non-null. -/
theorem reachable_statusImpliesAgent (es : List Event) :
    statusImpliesAgent (World.run World.init es).tm.tickets := by
  suffices hgen : ∀ w : World, statusImpliesAgent w.tm.tickets →
      statusImpliesAgent (World.run w es).tm.tickets by
    refine hgen World.init ?_
    intro p hp
    simp [World.init, TicketManager.init] at hp
  induction es with
  | nil => exact fun w hw => hw
  | cons e rest ih => exact fun w hw => ih _ (statusImpliesAgent_step w e hw)

/-- Witness for C1 (amended) at the concrete reachable state of esC1. -/
theorem reachable_statusImpliesAgent_witness :
    statusImpliesAgent (World.run World.init esC1).tm.tickets :=
  reachable_statusImpliesAgent esC1

/-! Claim C2: at most one open/assigned ticket per customer connection. -/

/-- The number of stored tickets that are open or assigned for the customer
    socket id. -/
def countFor (l : List (TicketId × Ticket)) (sid : String) : Nat :=
  (l.filter (fun p => openAssignedFor sid p.2)).length

/-- The claimed per-customer uniqueness property. -/
def atMostOnePerCustomer (tm : TicketManager) : Prop :=
  ∀ sid, countFor tm.tickets sid ≤ 1

/-- The event trace breaking per-customer uniqueness: c1's ticket is assigned
    to A1, A1 marks it resolved, c1's next message opens a second ticket, and
    A1 then sets the first ticket's status back to "open" through
    update_ticket_status (which stores any status string verbatim). -/
def esC2 : List Event :=
  [Event.agentAuthenticate "s1" "A1" "Alice" "",
   Event.customerConnect "c1",
   Event.chatMessage "c1" "Hello",
   Event.agentUpdateTicketStatus "s1" ⟨2, 1⟩ "resolved",
   Event.chatMessage "c1" "again",
   Event.agentUpdateTicketStatus "s1" ⟨2, 1⟩ "open"]

/-- C2 fails on the code: after esC2 customer c1 has two tickets with status
    in the open/assigned set (one "open", one "assigned"). -/
theorem two_open_tickets_per_customer :
    countFor (World.run World.init esC2).tm.tickets "c1" = 2 ∧
    ¬ atMostOnePerCustomer (World.run World.init esC2).tm := by
  have h : countFor (World.run World.init esC2).tm.tickets "c1" = 2 := by decide
  refine ⟨h, fun hall => ?_⟩
  have := hall "c1"
  omega

/-- Whether an event is an update_ticket_status carrying status "open" or
    "assigned" - the reopen path excluded by the amended claim. -/
def reopensTicket : Event → Bool
  | Event.agentUpdateTicketStatus _ _ s => s == "open" || s == "assigned"
  | _ => false

/-- Well-formedness of the tickets map: each stored value carries its key as
    its id, keys stay below the counter and are pairwise distinct, and each
    customer has at most one open/assigned ticket. -/
def ticketsWF (tm : TicketManager) : Prop :=
  (∀ p ∈ tm.tickets,
    (p : TicketId × Ticket).2.id = p.1 ∧ p.1.seq < tm.ticketCounter) ∧
  (tm.tickets.map Prod.fst).Nodup ∧
  atMostOnePerCustomer tm

theorem ticketsWF_congr (tm tm' : TicketManager) (h1 : tm'.tickets = tm.tickets)
    (h2 : tm'.ticketCounter = tm.ticketCounter) (h : ticketsWF tm) :
    ticketsWF tm' := by
  obtain ⟨ha, hb, hc⟩ := h
  refine ⟨?_, ?_, ?_⟩
  · rw [h1, h2]
    exact ha
  · rw [h1]
    exact hb
  · intro sid
    show countFor tm'.tickets sid ≤ 1
    rw [h1]
    exact hc sid

theorem getA_of_mem_nodup {κ α : Type} [DecidableEq κ] {m : List (κ × α)} {k : κ}
    {v : α} (hnd : (m.map Prod.fst).Nodup) (hm : (k, v) ∈ m) :
    getA m k = some v := by
  induction m with
  | nil => simp at hm
  | cons q rest ih =>
    obtain ⟨ka, va⟩ := q
    rcases List.mem_cons.mp hm with h1 | h1
    · injection h1 with hk hv
      subst hk
      subst hv
      simp [getA]
    · by_cases hk : ka = k
      · exfalso
        subst hk
        exact (List.nodup_cons.mp hnd).1
          (List.mem_map.mpr ⟨(ka, v), h1, rfl⟩)
      · simp only [getA, if_neg hk]
        exact ih (List.nodup_cons.mp hnd).2 h1

theorem filterLen_setA_eq {κ α : Type} [DecidableEq κ] (l : List (κ × α)) (k : κ)
    (v w : α) (pb : α → Bool) (hget : getA l k = some w) (hpred : pb v = pb w) :
    ((setA l k v).filter (fun p => pb p.2)).length =
      (l.filter (fun p => pb p.2)).length := by
  induction l with
  | nil => simp [getA] at hget
  | cons q rest ih =>
    obtain ⟨ka, va⟩ := q
    by_cases hk : ka = k
    · subst hk
      simp only [getA, if_pos rfl] at hget
      injection hget with hget
      subst hget
      have hset : setA ((ka, va) :: rest) ka v = (ka, v) :: rest := by
        simp [setA]
      rw [hset]
      simp only [List.filter_cons]
      rw [hpred]
      cases hva : pb va <;> simp
    · have hset : setA ((ka, va) :: rest) k v = (ka, va) :: setA rest k v := by
        simp [setA, hk]
      simp only [getA, if_neg hk] at hget
      rw [hset]
      simp only [List.filter_cons]
      cases hpv : pb va <;> simp [ih hget]

theorem filterLen_setA_le {κ α : Type} [DecidableEq κ] (l : List (κ × α)) (k : κ)
    (v w : α) (pb : α → Bool) (hget : getA l k = some w)
    (hpred : pb v = true → pb w = true) :
    ((setA l k v).filter (fun p => pb p.2)).length ≤
      (l.filter (fun p => pb p.2)).length := by
  induction l with
  | nil => simp [getA] at hget
  | cons q rest ih =>
    obtain ⟨ka, va⟩ := q
    by_cases hk : ka = k
    · subst hk
      simp only [getA, if_pos rfl] at hget
      injection hget with hget
      subst hget
      have hset : setA ((ka, va) :: rest) ka v = (ka, v) :: rest := by
        simp [setA]
      rw [hset]
      simp only [List.filter_cons]
      cases hv : pb v
      · cases hw : pb va <;> simp
      · rw [hpred hv]
        simp
    · have hset : setA ((ka, va) :: rest) k v = (ka, va) :: setA rest k v := by
        simp [setA, hk]
      simp only [getA, if_neg hk] at hget
      rw [hset]
      simp only [List.filter_cons]
      cases hpv : pb va
      · simpa using ih hget
      · simpa using ih hget

theorem filterLen_append_single {κ α : Type} [DecidableEq κ] (l : List (κ × α))
    (k : κ) (v : α) (pb : α → Bool) :
    ((l ++ [(k, v)]).filter (fun p => pb p.2)).length =
      (l.filter (fun p => pb p.2)).length + (if pb v then 1 else 0) := by
  rw [List.filter_append]
  cases hv : pb v <;> simp [List.filter_cons, hv]

/-- A customer with no open/assigned ticket has a zero count. -/
theorem countFor_eq_zero (tm : TicketManager) (sid : String)
    (hno : tm.getTicketByCustomer sid = none) : countFor tm.tickets sid = 0 := by
  simp only [TicketManager.getTicketByCustomer] at hno
  rw [List.find?_eq_none] at hno
  simp only [countFor]
  rw [List.length_eq_zero]
  apply List.filter_eq_nil_iff.mpr
  intro p hp
  simpa using hno p.2 (List.mem_map.mpr ⟨p, hp, rfl⟩)

/-- Every key stored in a well-formed tickets map is below the counter, so
    the id generated at the current counter is fresh. -/
theorem getA_fresh (tm : TicketManager) (now : Nat)
    (hwf : ∀ p ∈ tm.tickets,
      (p : TicketId × Ticket).2.id = p.1 ∧ p.1.seq < tm.ticketCounter) :
    getA tm.tickets ⟨now, tm.ticketCounter⟩ = none := by
  cases h : getA tm.tickets ⟨now, tm.ticketCounter⟩ with
  | none => rfl
  | some v =>
    have := (hwf _ (getA_mem h)).2
    simp at this

/-- The ticket a customer's find? returns is stored under its own id. -/
theorem getTicketByCustomer_lookup (tm : TicketManager) (sid : String) (t : Ticket)
    (hco : ∀ p ∈ tm.tickets,
      (p : TicketId × Ticket).2.id = p.1 ∧ p.1.seq < tm.ticketCounter)
    (hnd : (tm.tickets.map Prod.fst).Nodup)
    (htc : tm.getTicketByCustomer sid = some t) :
    getA tm.tickets t.id = some t := by
  have hmem := List.mem_of_find?_eq_some htc
  obtain ⟨p, hp, hpt⟩ := List.mem_map.mp hmem
  obtain ⟨p1, p2⟩ := p
  subst hpt
  rw [(hco (p1, p2) hp).1]
  exact getA_of_mem_nodup hnd hp

/-- The created ticket is stored under the fresh id. -/
theorem createTicket_lookup (tm : TicketManager) (cid csid : String)
    (im : Option String) (now : Nat) :
    getA (tm.createTicket cid csid im now).2.tickets
        (tm.createTicket cid csid im now).1.id =
      some (tm.createTicket cid csid im now).1 := by
  simp only [TicketManager.createTicket, TicketManager.generateTicketId]
  exact getA_setA_self _ _ _

/-- After addMessage, the stored ticket keeps its status and customer. -/
theorem addMessage_lookup (tm : TicketManager) (tid : TicketId) (c s : String)
    (sidOpt : Option String) (now : Nat) (t : Ticket)
    (ht : getA tm.tickets tid = some t) :
    ∃ t', getA (tm.addMessage tid c s sidOpt now).2.tickets tid = some t' ∧
      t'.status = t.status ∧ t'.customerSocketId = t.customerSocketId := by
  simp only [TicketManager.addMessage, ht]
  exact ⟨_, getA_setA_self _ _ _, rfl, rfl⟩

theorem ticketsWF_addMessage (tm : TicketManager) (tid : TicketId)
    (content sender : String) (senderId : Option String) (now : Nat)
    (hwf : ticketsWF tm) :
    ticketsWF (tm.addMessage tid content sender senderId now).2 := by
  obtain ⟨hco, hnd, hcnt⟩ := hwf
  cases ht : getA tm.tickets tid with
  | none =>
    simp only [TicketManager.addMessage, ht]
    exact ⟨hco, hnd, hcnt⟩
  | some t =>
    simp only [TicketManager.addMessage, ht]
    refine ⟨?_, ?_, ?_⟩
    · intro p hp
      rcases mem_setA hp with h1 | h1
      · rw [h1]
        exact hco (tid, t) (getA_mem ht)
      · exact hco p h1
    · show ((setA tm.tickets tid _).map Prod.fst).Nodup
      rw [keys_setA_of_getA_some _ ht]
      exact hnd
    · intro sid
      show countFor (setA tm.tickets tid _) sid ≤ 1
      unfold countFor
      refine le_trans (le_of_eq
        (filterLen_setA_eq tm.tickets tid _ t (openAssignedFor sid) ht ?_)) (hcnt sid)
      rfl

theorem ticketsWF_createTicket (tm : TicketManager) (cid sid : String)
    (im : Option String) (now : Nat) (hwf : ticketsWF tm)
    (hno : tm.getTicketByCustomer sid = none) :
    ticketsWF (tm.createTicket cid sid im now).2 := by
  obtain ⟨hco, hnd, hcnt⟩ := hwf
  have hzero := countFor_eq_zero tm sid hno
  have hfresh : getA tm.tickets ⟨now, tm.ticketCounter⟩ = none := getA_fresh tm now hco
  simp only [TicketManager.createTicket, TicketManager.generateTicketId]
  rw [setA_of_getA_none _ hfresh]
  refine ⟨?_, ?_, ?_⟩
  · intro p hp
    rcases List.mem_append.mp hp with h1 | h1
    · exact ⟨(hco p h1).1, Nat.lt_succ_of_lt (hco p h1).2⟩
    · have h2 : p = (⟨now, tm.ticketCounter⟩, _) := List.mem_singleton.mp h1
      rw [h2]
      exact ⟨rfl, Nat.lt_succ_self _⟩
  · rw [List.map_append]
    refine List.Nodup.append hnd (List.nodup_singleton _) ?_
    intro x hx hx'
    obtain ⟨p, hp, hpx⟩ := List.mem_map.mp hx
    have hseq := (hco p hp).2
    have hx2 : x = (⟨now, tm.ticketCounter⟩ : TicketId) := by simpa using hx'
    rw [hpx, hx2] at hseq
    simp at hseq
  · intro sid'
    show countFor (tm.tickets ++ _) sid' ≤ 1
    unfold countFor
    rw [filterLen_append_single tm.tickets _ _ (openAssignedFor sid')]
    by_cases hsid : sid = sid'
    · subst hsid
      have h0 : (List.filter (fun p => openAssignedFor sid p.2) tm.tickets).length = 0 :=
        hzero
      rw [h0]
      split <;> simp
    · split
      next hlit =>
        exfalso
        simp [openAssignedFor] at hlit
        exact hsid hlit
      next hlit =>
        simpa [countFor] using hcnt sid'

theorem ticketsWF_assignTicket (tm : TicketManager) (tid : TicketId) (aid : String)
    (now : Nat) (hwf : ticketsWF tm)
    (hopen : ∀ t, getA tm.tickets tid = some t →
      t.status = "open" ∨ t.status = "assigned") :
    ticketsWF (tm.assignTicket tid aid now).2 := by
  obtain ⟨hco, hnd, hcnt⟩ := hwf
  cases ht : getA tm.tickets tid with
  | none =>
    simp only [TicketManager.assignTicket, ht]
    exact ⟨hco, hnd, hcnt⟩
  | some t =>
    cases ha : getA tm.agentSockets aid with
    | none =>
      simp only [TicketManager.assignTicket, ht, ha]
      exact ⟨hco, hnd, hcnt⟩
    | some ag =>
      simp only [TicketManager.assignTicket, ht, ha]
      refine ⟨?_, ?_, ?_⟩
      · intro p hp
        rcases mem_setA hp with h1 | h1
        · rw [h1]
          exact hco (tid, t) (getA_mem ht)
        · exact hco p h1
      · show ((setA tm.tickets tid _).map Prod.fst).Nodup
        rw [keys_setA_of_getA_some _ ht]
        exact hnd
      · intro sid
        show countFor (setA tm.tickets tid _) sid ≤ 1
        unfold countFor
        have hpred : openAssignedFor sid
            { t with assignedAgent := some aid, status := "assigned", updatedAt := now } =
            openAssignedFor sid t := by
          rcases hopen t ht with h | h <;> simp [openAssignedFor, h]
        rw [filterLen_setA_eq tm.tickets tid _ t (openAssignedFor sid) ht hpred]
        exact hcnt sid

theorem ticketsWF_closeTicket (tm : TicketManager) (tid : TicketId) (cb : String)
    (now : Nat) (hwf : ticketsWF tm) : ticketsWF (tm.closeTicket tid cb now).2 := by
  obtain ⟨hco, hnd, hcnt⟩ := hwf
  cases ht : getA tm.tickets tid with
  | none =>
    simp only [TicketManager.closeTicket, ht]
    exact ⟨hco, hnd, hcnt⟩
  | some t =>
    simp only [TicketManager.closeTicket, ht]
    refine ⟨?_, ?_, ?_⟩
    · intro p hp
      rcases mem_setA hp with h1 | h1
      · rw [h1]
        exact hco (tid, t) (getA_mem ht)
      · exact hco p h1
    · show ((setA tm.tickets tid _).map Prod.fst).Nodup
      rw [keys_setA_of_getA_some _ ht]
      exact hnd
    · intro sid
      show countFor (setA tm.tickets tid _) sid ≤ 1
      unfold countFor
      refine le_trans
        (filterLen_setA_le tm.tickets tid _ t (openAssignedFor sid) ht ?_) (hcnt sid)
      intro hv
      simp [openAssignedFor] at hv

theorem ticketsWF_chatCore (tm : TicketManager) (sid msg : String) (now : Nat)
    (hwf : ticketsWF tm) : ticketsWF (chatMessageCore tm sid msg now).2 := by
  cases htc : tm.getTicketByCustomer sid with
  | none =>
    simp only [chatMessageCore, htc]
    have hc := ticketsWF_createTicket tm sid sid (some msg) now hwf htc
    split
    · split
      · refine ticketsWF_assignTicket _ _ _ _ hc ?_
        intro u hu
        rw [createTicket_lookup] at hu
        injection hu with hu
        subst hu
        exact Or.inl rfl
      · exact hc
    · repeat' split
      all_goals exact hc
  | some t =>
    have ht : getA tm.tickets t.id = some t :=
      getTicketByCustomer_lookup tm sid t hwf.1 hwf.2.1 htc
    simp only [chatMessageCore, htc]
    have hc := ticketsWF_addMessage tm t.id msg "customer" none now hwf
    split
    case isTrue hst =>
      split
      · refine ticketsWF_assignTicket _ _ _ _ hc ?_
        intro u hu
        obtain ⟨t', ht', hs, _⟩ := addMessage_lookup tm t.id msg "customer" none now t ht
        rw [ht'] at hu
        injection hu with hu
        subst hu
        exact Or.inl (hs.trans hst)
      · exact hc
    case isFalse hst =>
      repeat' split
      all_goals exact hc

theorem ticketsWF_chatMessage (tm : TicketManager) (sid msg : String) (now : Nat)
    (hwf : ticketsWF tm) : ticketsWF (handleChatMessage tm sid msg now).2 := by
  cases hcs : getA tm.customerSockets sid with
  | none =>
    simp only [handleChatMessage, hcs]
    exact ticketsWF_chatCore _ _ _ _ hwf
  | some info =>
    simp only [handleChatMessage, hcs]
    exact ticketsWF_chatCore _ _ _ _ (ticketsWF_congr tm _ rfl rfl hwf)

theorem ticketsWF_sendMessage (w : World) (sock : String) (tid : TicketId)
    (msg : String) (now : Nat) (hwf : ticketsWF w.tm) :
    ticketsWF (handleSendMessage w sock tid msg now).2.tm := by
  simp only [handleSendMessage]
  repeat' split
  all_goals first
    | exact hwf
    | exact ticketsWF_addMessage _ _ _ _ _ _ hwf

theorem ticketsWF_updateTicketStatus (w : World) (sock : String) (tid : TicketId)
    (s : String) (now : Nat) (hwf : ticketsWF w.tm)
    (hs1 : s ≠ "open") (hs2 : s ≠ "assigned") :
    ticketsWF (handleUpdateTicketStatus w sock tid s now).2.tm := by
  obtain ⟨hco, hnd, hcnt⟩ := hwf
  cases ht : getA w.tm.tickets tid with
  | none =>
    cases hb : getA w.socketAgent sock with
    | none =>
      simp only [handleUpdateTicketStatus, ht, hb]
      exact ⟨hco, hnd, hcnt⟩
    | some aid =>
      simp only [handleUpdateTicketStatus, ht, hb]
      exact ⟨hco, hnd, hcnt⟩
  | some t =>
    cases hb : getA w.socketAgent sock with
    | none =>
      simp only [handleUpdateTicketStatus, ht, hb]
      exact ⟨hco, hnd, hcnt⟩
    | some aid =>
      simp only [handleUpdateTicketStatus, ht, hb]
      split
      case isTrue hass =>
        have hmid : ticketsWF { w.tm with
            tickets := setA w.tm.tickets tid { t with status := s, updatedAt := now } } := by
          refine ⟨?_, ?_, ?_⟩
          · intro p hp
            rcases mem_setA hp with h1 | h1
            · rw [h1]
              exact hco (tid, t) (getA_mem ht)
            · exact hco p h1
          · show ((setA w.tm.tickets tid _).map Prod.fst).Nodup
            rw [keys_setA_of_getA_some _ ht]
            exact hnd
          · intro sid
            show countFor (setA w.tm.tickets tid _) sid ≤ 1
            unfold countFor
            refine le_trans
              (filterLen_setA_le w.tm.tickets tid _ t (openAssignedFor sid) ht ?_)
              (hcnt sid)
            intro hv
            simp [openAssignedFor, hs1, hs2] at hv
        split
        · exact ticketsWF_closeTicket _ _ _ _ hmid
        · exact hmid
      case isFalse hass => exact ⟨hco, hnd, hcnt⟩

theorem ticketsWF_getTicketDetails (w : World) (sock : String) (tid : TicketId)
    (hwf : ticketsWF w.tm) :
    ticketsWF (handleGetTicketDetails w sock tid).2.tm := by
  obtain ⟨hco, hnd, hcnt⟩ := hwf
  cases ht : getA w.tm.tickets tid with
  | none =>
    cases hb : getA w.socketAgent sock with
    | none =>
      simp only [handleGetTicketDetails, ht, hb]
      exact ⟨hco, hnd, hcnt⟩
    | some aid =>
      simp only [handleGetTicketDetails, ht, hb]
      exact ⟨hco, hnd, hcnt⟩
  | some t =>
    cases hb : getA w.socketAgent sock with
    | none =>
      simp only [handleGetTicketDetails, ht, hb]
      exact ⟨hco, hnd, hcnt⟩
    | some aid =>
      simp only [handleGetTicketDetails, ht, hb]
      split
      · refine ⟨?_, ?_, ?_⟩
        · intro p hp
          rcases mem_setA hp with h1 | h1
          · rw [h1]
            exact hco (tid, t) (getA_mem ht)
          · exact hco p h1
        · show ((setA w.tm.tickets tid _).map Prod.fst).Nodup
          rw [keys_setA_of_getA_some _ ht]
          exact hnd
        · intro sid
          show countFor (setA w.tm.tickets tid _) sid ≤ 1
          unfold countFor
          refine le_trans (le_of_eq
            (filterLen_setA_eq w.tm.tickets tid _ t (openAssignedFor sid) ht ?_))
            (hcnt sid)
          rfl
      · exact ⟨hco, hnd, hcnt⟩

/-- One step of any non-reopening event preserves tickets well-formedness. -/
theorem ticketsWF_step (w : World) (e : Event) (hwf : ticketsWF w.tm)
    (he : reopensTicket e = false) : ticketsWF (w.step e).2.tm := by
  cases e with
  | customerConnect sid => exact ticketsWF_congr w.tm _ rfl rfl hwf
  | chatMessage sid msg => exact ticketsWF_chatMessage _ _ _ _ hwf
  | customerTyping sid b =>
    show ticketsWF (handleCustomerTyping w.tm sid b).2
    rw [customerTyping_frame]
    exact hwf
  | customerDisconnect sid => exact ticketsWF_congr w.tm _ rfl rfl hwf
  | agentAuthenticate sock aid name dept =>
    show ticketsWF (handleAuthenticate w sock aid name dept w.clock).2.tm
    exact ticketsWF_congr w.tm _ (authenticate_frame w sock aid name dept w.clock).1
      (authenticate_frame w sock aid name dept w.clock).2 hwf
  | agentSendMessage sock tid msg => exact ticketsWF_sendMessage _ _ _ _ _ hwf
  | agentTyping sock tid b =>
    show ticketsWF (handleAgentTyping w sock tid b).2.tm
    rw [agentTyping_frame]
    exact hwf
  | agentUpdateTicketStatus sock tid s =>
    simp only [reopensTicket, Bool.or_eq_false_iff, beq_eq_false_iff_ne] at he
    exact ticketsWF_updateTicketStatus _ _ _ _ _ hwf he.1 he.2
  | agentUpdateStatus sock s =>
    show ticketsWF (handleUpdateStatus w sock s w.clock).2.tm
    exact ticketsWF_congr w.tm _ (updateStatus_frame w sock s w.clock).1
      (updateStatus_frame w sock s w.clock).2 hwf
  | agentGetTicketDetails sock tid => exact ticketsWF_getTicketDetails _ _ _ hwf
  | agentDisconnect sock =>
    show ticketsWF (handleAgentDisconnect w sock).2.tm
    exact ticketsWF_congr w.tm _ (agentDisconnect_frame w sock).1
      (agentDisconnect_frame w sock).2 hwf

theorem run_ticketsWF : ∀ (es : List Event) (w : World), ticketsWF w.tm →
    (∀ e ∈ es, reopensTicket e = false) → ticketsWF (World.run w es).tm := by
  intro es
  induction es with
  | nil => exact fun w hw _ => hw
  | cons e rest ih =>
    intro w hw hre
    exact ih _ (ticketsWF_step w e hw (hre e (List.mem_cons_self _ _)))
      (fun e' he' => hre e' (List.mem_cons_of_mem _ he'))

/-- C2 (amended): in every state reachable by a trace whose
    update_ticket_status events never carry status "open" or "assigned", each
    customer connection has at most one open/assigned ticket. The unrestricted
    claim fails because update_ticket_status stores any status string
    verbatim, so an agent can move a ticket out of and back into the
    open/assigned set. -/
theorem reachable_atMostOnePerCustomer (es : List Event)
    (hre : ∀ e ∈ es, reopensTicket e = false) :
    atMostOnePerCustomer (World.run World.init es).tm :=
  (run_ticketsWF es World.init
    ⟨by simp [World.init, TicketManager.init],
     by simp [World.init, TicketManager.init],
     fun sid => by simp [World.init, TicketManager.init, countFor]⟩ hre).2.2

/-- Witness for C2 (amended): the esC1 trace never reopens a ticket. -/
theorem reachable_atMostOnePerCustomer_witness :
    atMostOnePerCustomer (World.run World.init esC1).tm :=
  reachable_atMostOnePerCustomer esC1 (by decide)
